import Mathlib

/-
Verification of the frontend performance/error monitor (src/index.ts).

The monitor is a single class `FrontendMonitor` with:
  - `getBasicTiming`: pure derivation of eight duration metrics from a
    `performance.timing` snapshot;
  - three `PerformanceObserver` callbacks (paint, largest-contentful-paint,
    layout-shift), the last one accumulating `clsValue`;
  - two `window` "error" listeners (script errors, resource errors) plus an
    "unhandledrejection" listener, each normalising into an error record;
  - an idempotent `init` guarded by `isMonitoring`.

JavaScript numbers are modelled as `Rat` (observer entry times, CLS values)
and `Int` (the integer millisecond marks of `performance.timing`, line and
column numbers, timestamps).  JavaScript `undefined` is modelled as `none`
of an `Option`, and the truthiness of `x || y` on strings/numbers is made
explicit in small `jsOr*` helpers.
-/

namespace Monitor

/-- The `performance.timing` snapshot: the marks read by `getBasicTiming`,
each an integer epoch-millisecond timestamp (`PerformanceTiming` fields). -/
structure PerformanceTiming where
  navigationStart : Int
  domainLookupStart : Int
  domainLookupEnd : Int
  connectStart : Int
  connectEnd : Int
  requestStart : Int
  responseStart : Int
  domInteractive : Int
  domComplete : Int
  domContentLoadedEventEnd : Int
  loadEventStart : Int
  loadEventEnd : Int
deriving DecidableEq, Repr

/-- The eight required fields of a performance report's `data` payload. -/
structure BasicTiming where
  dns : Int
  tcp : Int
  ttfb : Int
  domParse : Int
  resources : Int
  domReady : Int
  interactive : Int
  load : Int
deriving DecidableEq, Repr

/-- Embedding of `FrontendMonitor.getBasicTiming` (src/index.ts:120-132):
each field is the stated difference of two marks of `performance.timing`. -/
def getBasicTiming (t : PerformanceTiming) : BasicTiming :=
  { dns := t.domainLookupEnd - t.domainLookupStart
    tcp := t.connectEnd - t.connectStart
    ttfb := t.responseStart - t.requestStart
    domParse := t.domComplete - t.domInteractive
    resources := t.loadEventStart - t.domContentLoadedEventEnd
    domReady := t.domContentLoadedEventEnd - t.navigationStart
    interactive := t.domInteractive - t.navigationStart
    load := t.loadEventEnd - t.navigationStart }

/-- A timing snapshot for the end-to-end scenario of the spec:
domainLookupStart = 100, domainLookupEnd = 112, every other mark 0. -/
def scenarioTiming : PerformanceTiming :=
  { navigationStart := 0
    domainLookupStart := 100
    domainLookupEnd := 112
    connectStart := 0
    connectEnd := 0
    requestStart := 0
    responseStart := 0
    domInteractive := 0
    domComplete := 0
    domContentLoadedEventEnd := 0
    loadEventStart := 0
    loadEventEnd := 0 }

/-- JavaScript `a || b` on numbers (no NaN in scope): `a` when non-zero,
else `b`.  Used for `lastEntry.renderTime || lastEntry.loadTime`. -/
def jsOrNum (a b : Rat) : Rat :=
  if a = 0 then b else a

/-- JavaScript `Math.round`: round half up. -/
def jsRound (q : Rat) : Int :=
  Int.floor (q + 1 / 2)

/-- A `PerformanceEntry` of the "paint" stream: a name
("first-paint" / "first-contentful-paint") and a `startTime`. -/
structure PaintEntry where
  name : String
  startTime : Rat
deriving DecidableEq, Repr

/-- A `LargestContentfulPaintEntry` (src/index.ts:42-45): `renderTime` and
`loadTime`, with 0 standing for an unset render time. -/
structure LargestContentfulPaintEntry where
  renderTime : Rat
  loadTime : Rat
deriving DecidableEq, Repr

/-- A `LayoutShiftEntry` (src/index.ts:37-40): a shift `value` and the
`hadRecentInput` flag. -/
structure LayoutShiftEntry where
  value : Rat
  hadRecentInput : Bool
deriving DecidableEq, Repr

/-- The `data` payload of an outgoing performance report: the eight basic
fields, freshly computed at emission time, plus the optional field the
emitting callback sets (`fid` is declared in the interface but never set
by the monitor, so it is omitted here). -/
structure PerfData where
  basic : BasicTiming
  fp : Option Int := none
  fcp : Option Int := none
  lcp : Option Int := none
  cls : Option Rat := none
deriving DecidableEq, Repr

/-- The platform's `PerformanceObserverEntryList.getEntriesByName`:
the delivered entries whose name is `n`, in delivery order. -/
def getEntriesByName (n : String) (es : List PaintEntry) : List PaintEntry :=
  es.filter fun e => e.name = n

/-- Embedding of the paint observer callback (src/index.ts:76-89): one
report per entry named "first-paint" (carrying `fp`), then one per entry
named "first-contentful-paint" (carrying `fcp`), each spread over a fresh
`getBasicTiming` snapshot. -/
def paintCallback (t : PerformanceTiming) (es : List PaintEntry) : List PerfData :=
  ((getEntriesByName "first-paint" es).map fun e =>
    { basic := getBasicTiming t, fp := some (jsRound e.startTime) }) ++
  ((getEntriesByName "first-contentful-paint" es).map fun e =>
    { basic := getBasicTiming t, fcp := some (jsRound e.startTime) })

/-- Embedding of the LCP observer callback (src/index.ts:92-102): if the
delivered batch is non-empty, take its last entry, compute
`lastEntry.renderTime || lastEntry.loadTime`, and emit one report with
the rounded value as `lcp`; an empty batch emits nothing. -/
def lcpCallback (t : PerformanceTiming) (es : List LargestContentfulPaintEntry) :
    List PerfData :=
  match es.getLast? with
  | none => []
  | some lastEntry =>
      [{ basic := getBasicTiming t,
         lcp := some (jsRound (jsOrNum lastEntry.renderTime lastEntry.loadTime)) }]

/-- The accumulation loop of the CLS observer callback (src/index.ts:107-111):
starting from the current `clsValue`, add `entry.value` for each delivered
entry whose `hadRecentInput` is false. -/
def clsFold (cls : Rat) (es : List LayoutShiftEntry) : Rat :=
  es.foldl (fun c e => if e.hadRecentInput then c else c + e.value) cls

/-- Embedding of the CLS observer callback (src/index.ts:105-116): fold the
batch into the accumulator, then unconditionally emit one report carrying
the accumulator's new value as `cls`. -/
def clsCallback (t : PerformanceTiming) (cls : Rat) (es : List LayoutShiftEntry) :
    Rat × List PerfData :=
  let c := clsFold cls es
  (c, [{ basic := getBasicTiming t, cls := some c }])

/-- Embedding of `reportPerformance` (src/index.ts:188-193), the "load"
handler's body: one report with only the basic fields. -/
def reportPerformance (t : PerformanceTiming) : PerfData :=
  { basic := getBasicTiming t }

/-- An event the host platform can deliver to the running monitor: a batch
delivered to one of the three observer callbacks, or the page "load" event
firing. -/
inductive MonitorEvent where
  | paintDelivery (es : List PaintEntry)
  | lcpDelivery (es : List LargestContentfulPaintEntry)
  | clsDelivery (es : List LayoutShiftEntry)
  | loadFired
deriving DecidableEq, Repr

/-- Whether the event is the page "load" event. -/
def MonitorEvent.isLoad : MonitorEvent → Bool
  | .loadFired => true
  | _ => false

/-- One callback invocation: the monitor's only cross-callback state is
`clsValue`; the result is the new `clsValue` and the reports emitted by
the invoked callback, in emission order. -/
def handleEvent (t : PerformanceTiming) (cls : Rat) :
    MonitorEvent → Rat × List PerfData
  | .paintDelivery es => (cls, paintCallback t es)
  | .lcpDelivery es => (cls, lcpCallback t es)
  | .clsDelivery es => clsCallback t cls es
  | .loadFired => (cls, [reportPerformance t])

/-- Run the monitor over a sequence of platform-delivered events (the host
is single-threaded, so callbacks run to completion in delivery order):
final `clsValue` and all emitted performance reports in order. -/
def runMonitor (t : PerformanceTiming) (cls : Rat) :
    List MonitorEvent → Rat × List PerfData
  | [] => (cls, [])
  | e :: rest =>
      let step := handleEvent t cls e
      let tail := runMonitor t step.1 rest
      (tail.1, step.2 ++ tail.2)

/-- How many times a single callback invocation evaluates
`this.getBasicTiming()`: the source spreads `...this.getBasicTiming()` into
every report it emits, so the count is one per emitted report. -/
def timingComputations : MonitorEvent → Nat
  | .paintDelivery es =>
      (getEntriesByName "first-paint" es).length +
        (getEntriesByName "first-contentful-paint" es).length
  | .lcpDelivery es => if es.isEmpty then 0 else 1
  | .clsDelivery _ => 1
  | .loadFired => 1

/-- Total number of `getBasicTiming` evaluations over an event sequence. -/
def timingComputationsTrace (tr : List MonitorEvent) : Nat :=
  (tr.map timingComputations).sum

/-- The prefix of an event sequence delivered before the "load" event fires. -/
def eventsBeforeLoad (tr : List MonitorEvent) : List MonitorEvent :=
  tr.takeWhile fun e => !e.isLoad

/-- All layout-shift entries delivered over an event sequence, in order. -/
def deliveredShiftEntries : List MonitorEvent → List LayoutShiftEntry
  | [] => []
  | .clsDelivery es :: rest => es ++ deliveredShiftEntries rest
  | .paintDelivery _ :: rest => deliveredShiftEntries rest
  | .lcpDelivery _ :: rest => deliveredShiftEntries rest
  | .loadFired :: rest => deliveredShiftEntries rest

/-- The host environment's observation capabilities:
whether `PerformanceObserver` exists on `window`, and which entry types
the observer implementation supports. -/
structure Host where
  hasPerformanceObserver : Bool
  supported : List String
deriving DecidableEq, Repr

/-- The platform's `PerformanceObserver.observe` with a `type` option
(Performance Timeline semantics: a registration for an entry type the
implementation does not support is dropped silently, with no exception):
the list of subscriptions the call actually establishes. -/
def observeType (h : Host) (ty : String) : List String :=
  if ty ∈ h.supported then [ty] else []

/-- The three entry types `setupPerformanceObserver` subscribes to,
in source order (src/index.ts:89, 102, 116). -/
def streamKinds : List String :=
  ["paint", "largest-contentful-paint", "layout-shift"]

/-- Embedding of `setupPerformanceObserver` (src/index.ts:72-117), as the
set of established subscriptions: the guard
`if (!('PerformanceObserver' in window)) return;` skips everything when the
observer primitive is absent; otherwise the three `observe` calls are
issued and each registers exactly when its entry type is supported. -/
def setupPerformanceObserver (h : Host) : List String :=
  if h.hasPerformanceObserver then
    observeType h "paint" ++ observeType h "largest-contentful-paint" ++
      observeType h "layout-shift"
  else []

/-- The observation capability for one stream is available on the host:
the observer primitive exists and the stream's entry type is supported. -/
def streamAvailable (h : Host) (ty : String) : Prop :=
  h.hasPerformanceObserver = true ∧ ty ∈ h.supported

instance (h : Host) (ty : String) : Decidable (streamAvailable h ty) := by
  unfold streamAvailable
  infer_instance

/-- What one `init()` call installs: observer subscriptions, listeners on
the error channels ("error" twice and "unhandledrejection" once, from
`captureErrors`), and "load" listeners. -/
structure InstallSet where
  subscriptions : List String
  errorListeners : Nat
  loadListeners : Nat
deriving DecidableEq, Repr

/-- The install set of a call that does nothing. -/
def noInstalls : InstallSet :=
  { subscriptions := [], errorListeners := 0, loadListeners := 0 }

/-- Embedding of `init` (src/index.ts:62-69): when `isMonitoring` is
already set the call returns immediately installing nothing; otherwise it
sets the flag, runs `setupPerformanceObserver` and `captureErrors`
(three listeners), and adds one "load" listener.  Result: the new
`isMonitoring` flag and what this call installed. -/
def init (h : Host) (isMonitoring : Bool) : Bool × InstallSet :=
  if isMonitoring then (isMonitoring, noInstalls)
  else (true,
    { subscriptions := setupPerformanceObserver h
      errorListeners := 3
      loadListeners := 1 })

/-- The `type` tag of a reported error record. -/
inductive ErrorKind where
  | js
  | resource
  | promise
deriving DecidableEq, Repr

/-- The `data` payload of an outgoing error report.  `message` is an
`Option` because the script-error listener copies `event.message`
verbatim, and that property is undefined on a plain (resource) error
event. -/
structure ErrorRecord where
  message : Option String
  filename : String
  lineno : Int
  colno : Int
  stack : Option String
  type : ErrorKind
  timestamp : Int
deriving DecidableEq, Repr

/-- JavaScript `a || b` where `a` is a possibly-undefined string: the
empty string and undefined are falsy, so both fall through to `b`. -/
def jsOrStr (a : Option String) (b : String) : String :=
  match a with
  | some s => if s = "" then b else s
  | none => b

/-- JavaScript `a || b` on two possibly-undefined strings, keeping the
result possibly undefined (used for `target.src || target.href`). -/
def jsOrOptStr (a b : Option String) : Option String :=
  match a with
  | some s => if s = "" then b else some s
  | none => b

/-- How a template literal renders a possibly-undefined string:
`undefined` prints as "undefined". -/
def jsTemplate (a : Option String) : String :=
  match a with
  | some s => s
  | none => "undefined"

/-- An event arriving on the `window` "error" channel in the capture
phase, as both installed listeners see it.  Location fields are undefined
(`none`) on plain resource-error events; `targetTag` is the `tagName` of
`event.target` when the target is an element, `none` when it is the
window itself; `targetSrc` / `targetHref` are the element's `src` / `href`
attributes when present. -/
structure ErrorChannelEvent where
  message : Option String
  filename : Option String
  lineno : Option Int
  colno : Option Int
  errorStack : Option String
  targetTag : Option String
  targetSrc : Option String
  targetHref : Option String
deriving DecidableEq, Repr

/-- Embedding of the script-error listener (src/index.ts:137-150):
`event.filename || window.location.href`, `event.lineno || 0`,
`event.colno || 0`, stack from `event.error?.stack`, kind `js`. -/
def jsErrorListener (pageUrl : String) (now : Int) (ev : ErrorChannelEvent) :
    ErrorRecord :=
  { message := ev.message
    filename := jsOrStr ev.filename pageUrl
    lineno := ev.lineno.getD 0
    colno := ev.colno.getD 0
    stack := ev.errorStack
    type := .js
    timestamp := now }

/-- The resource-error listener's guard (src/index.ts:155): the event
target exists and is a LINK, SCRIPT or IMG element. -/
def isResourceTarget (ev : ErrorChannelEvent) : Bool :=
  ev.targetTag = some "LINK" ∨ ev.targetTag = some "SCRIPT" ∨
    ev.targetTag = some "IMG"

/-- Embedding of the resource-error listener's report body
(src/index.ts:156-166): message "Resource load error: " followed by
`target.src || target.href` as a template literal renders it, filename
`target.src || target.href || ''`, line and column 0, kind `resource`. -/
def resourceErrorListener (now : Int) (ev : ErrorChannelEvent) : ErrorRecord :=
  { message := some ("Resource load error: " ++
      jsTemplate (jsOrOptStr ev.targetSrc ev.targetHref))
    filename := jsOrStr (jsOrOptStr ev.targetSrc ev.targetHref) ""
    lineno := 0
    colno := 0
    stack := none
    type := .resource
    timestamp := now }

/-- One event on the `window` "error" channel, seen by both capture-phase
listeners in installation order (src/index.ts:137 then 153): the script
listener reports unconditionally, the resource listener reports exactly
when the target qualifies. -/
def errorChannel (pageUrl : String) (now : Int) (ev : ErrorChannelEvent) :
    List ErrorRecord :=
  [jsErrorListener pageUrl now ev] ++
    (if isResourceTarget ev then [resourceErrorListener now ev] else [])

/-- An "unhandledrejection" event: the rejection reason's `message` and
`stack` when the reason exposes them. -/
structure RejectionEvent where
  reasonMessage : Option String
  reasonStack : Option String
deriving DecidableEq, Repr

/-- Embedding of the unhandled-rejection listener (src/index.ts:171-184):
`event.reason?.message || 'Unhandled promise rejection'`, filename the
current page URL, line and column 0, kind `promise`. -/
def rejectionListener (pageUrl : String) (now : Int) (ev : RejectionEvent) :
    ErrorRecord :=
  { message := some (jsOrStr ev.reasonMessage "Unhandled promise rejection")
    filename := pageUrl
    lineno := 0
    colno := 0
    stack := ev.reasonStack
    type := .promise
    timestamp := now }

/-- A qualifying resource-error event whose source location and resource
URL are entirely unknown: the failing target is an IMG element with no
`src` and no `href`. -/
def unknownResourceEvent : ErrorChannelEvent :=
  { message := none
    filename := none
    lineno := none
    colno := none
    errorStack := none
    targetTag := some "IMG"
    targetSrc := none
    targetHref := none }

end Monitor

/-- C1: for every navigation timing snapshot, the timing reader produces
exactly the eight required metrics as the specified differences of two
marks, including when a difference is zero; in particular
domainLookupStart = 100 and domainLookupEnd = 112 yields dns = 12. -/
theorem basic_timing_eight_differences :
    (∀ t : Monitor.PerformanceTiming,
      (Monitor.getBasicTiming t).dns = t.domainLookupEnd - t.domainLookupStart ∧
      (Monitor.getBasicTiming t).tcp = t.connectEnd - t.connectStart ∧
      (Monitor.getBasicTiming t).ttfb = t.responseStart - t.requestStart ∧
      (Monitor.getBasicTiming t).domParse = t.domComplete - t.domInteractive ∧
      (Monitor.getBasicTiming t).resources = t.loadEventStart - t.domContentLoadedEventEnd ∧
      (Monitor.getBasicTiming t).domReady = t.domContentLoadedEventEnd - t.navigationStart ∧
      (Monitor.getBasicTiming t).interactive = t.domInteractive - t.navigationStart ∧
      (Monitor.getBasicTiming t).load = t.loadEventEnd - t.navigationStart) ∧
    (Monitor.getBasicTiming Monitor.scenarioTiming).dns = 12 := by
  refine ⟨fun t => ⟨rfl, rfl, rfl, rfl, rfl, rfl, rfl, rfl⟩, ?_⟩
  decide

/-- Helper: the CLS accumulation loop adds exactly the values of the
entries whose `hadRecentInput` flag is false. -/
theorem clsFold_eq_add_sum (es : List Monitor.LayoutShiftEntry) :
    ∀ c : Rat, Monitor.clsFold c es =
      c + ((es.filter fun e => !e.hadRecentInput).map fun e => e.value).sum := by
  induction es with
  | nil => intro c; simp [Monitor.clsFold]
  | cons e es ih =>
      intro c
      have step : Monitor.clsFold c (e :: es) =
          Monitor.clsFold (if e.hadRecentInput then c else c + e.value) es := rfl
      cases h : e.hadRecentInput with
      | true => rw [step, h, if_pos rfl, ih]; simp [List.filter_cons, h]
      | false =>
          rw [step, h, if_neg (by simp), ih]
          simp [List.filter_cons, h]
          ring

/-- Helper: one callback invocation emits as many reports as it evaluates
`getBasicTiming`, and every report it emits embeds the snapshot computed
at that invocation. -/
theorem handleEvent_reports (t : Monitor.PerformanceTiming) (c : Rat)
    (e : Monitor.MonitorEvent) :
    (Monitor.handleEvent t c e).2.length = Monitor.timingComputations e ∧
    ∀ r ∈ (Monitor.handleEvent t c e).2, r.basic = Monitor.getBasicTiming t := by
  cases e with
  | paintDelivery es =>
      constructor
      · simp [Monitor.handleEvent, Monitor.paintCallback, Monitor.timingComputations]
      · intro r hr
        simp [Monitor.handleEvent, Monitor.paintCallback] at hr
        rcases hr with ⟨a, _, rfl⟩ | ⟨a, _, rfl⟩ <;> rfl
  | lcpDelivery es =>
      cases es with
      | nil => exact ⟨rfl, by intro r hr; simp [Monitor.handleEvent, Monitor.lcpCallback] at hr⟩
      | cons a as =>
          have hne : (a :: as).getLast? = some ((a :: as).getLast (by simp)) := by
            simp [List.getLast?_eq_getLast]
          constructor
          · simp [Monitor.handleEvent, Monitor.lcpCallback, hne,
              Monitor.timingComputations]
          · intro r hr
            simp [Monitor.handleEvent, Monitor.lcpCallback, hne] at hr
            subst hr; rfl
  | clsDelivery es =>
      constructor
      · rfl
      · intro r hr
        simp [Monitor.handleEvent, Monitor.clsCallback] at hr
        subst hr; rfl
  | loadFired =>
      exact ⟨rfl, by
        intro r hr
        simp [Monitor.handleEvent] at hr
        subst hr; rfl⟩

/-- Helper: over a whole run, the final accumulator value is the initial
value plus the values of every unflagged layout-shift entry ever delivered;
no event resets or otherwise perturbs it. -/
theorem runMonitor_cls (t : Monitor.PerformanceTiming)
    (tr : List Monitor.MonitorEvent) :
    ∀ c : Rat, (Monitor.runMonitor t c tr).1 =
      c + (((Monitor.deliveredShiftEntries tr).filter
        fun e => !e.hadRecentInput).map fun e => e.value).sum := by
  induction tr with
  | nil => intro c; simp [Monitor.runMonitor, Monitor.deliveredShiftEntries]
  | cons e rest ih =>
      intro c
      cases e with
      | paintDelivery es =>
          simpa [Monitor.runMonitor, Monitor.handleEvent,
            Monitor.deliveredShiftEntries] using ih c
      | lcpDelivery es =>
          simpa [Monitor.runMonitor, Monitor.handleEvent,
            Monitor.deliveredShiftEntries] using ih c
      | loadFired =>
          simpa [Monitor.runMonitor, Monitor.handleEvent,
            Monitor.deliveredShiftEntries] using ih c
      | clsDelivery es =>
          have : (Monitor.runMonitor t c (.clsDelivery es :: rest)).1 =
              (Monitor.runMonitor t (Monitor.clsFold c es) rest).1 := rfl
          rw [this, ih, clsFold_eq_add_sum]
          simp [Monitor.deliveredShiftEntries, List.filter_append]
          ring

/-- C2: the layout-instability accumulator is monotonically non-decreasing
over the monitor's lifetime: entries flagged `hadRecentInput` never change
the total, unflagged entries' values sum exactly into it, no event resets
it, and the delivery sequence value 0.05 (unflagged), 0.10 (flagged),
0.03 (unflagged) yields a final reported cls of 0.08. -/
theorem cls_accumulator_invariant :
    (∀ (c : Rat) (es : List Monitor.LayoutShiftEntry),
      Monitor.clsFold c es =
        c + ((es.filter fun e => !e.hadRecentInput).map fun e => e.value).sum) ∧
    (∀ (t : Monitor.PerformanceTiming) (c : Rat) (tr : List Monitor.MonitorEvent),
      (Monitor.runMonitor t c tr).1 =
        c + (((Monitor.deliveredShiftEntries tr).filter
          fun e => !e.hadRecentInput).map fun e => e.value).sum) ∧
    (∀ (c : Rat) (es : List Monitor.LayoutShiftEntry),
      (∀ e ∈ es, 0 ≤ e.value) → c ≤ Monitor.clsFold c es) ∧
    ((Monitor.runMonitor Monitor.scenarioTiming 0
        [.clsDelivery [⟨1/20, false⟩], .clsDelivery [⟨1/10, true⟩],
         .clsDelivery [⟨3/100, false⟩]]).2.map fun r => r.cls) =
      [some (1/20), some (1/20), some (2/25)] := by
  refine ⟨fun c es => clsFold_eq_add_sum es c,
    fun t c tr => runMonitor_cls t tr c, fun c es h => ?_, by
      simp [Monitor.runMonitor, Monitor.handleEvent, Monitor.clsCallback,
        Monitor.clsFold, List.foldl]
      norm_num⟩
  rw [clsFold_eq_add_sum]
  have hs : 0 ≤ ((es.filter fun e => !e.hadRecentInput).map fun e => e.value).sum := by
    apply List.sum_nonneg
    intro x hx
    simp [List.mem_map, List.mem_filter] at hx
    rcases hx with ⟨a, ⟨ha, _⟩, rfl⟩
    exact h a ha
  linarith

/-- Witness for C2 at a concrete input: a single unflagged entry of
value 1/20 satisfies the non-negativity hypothesis and the accumulator
does not decrease. -/
theorem cls_accumulator_invariant_witness :
    (∀ e ∈ [(⟨1/20, false⟩ : Monitor.LayoutShiftEntry)], (0 : Rat) ≤ e.value) ∧
    (0 : Rat) ≤ Monitor.clsFold 0 [⟨1/20, false⟩] :=
  have h : ∀ e ∈ [(⟨1/20, false⟩ : Monitor.LayoutShiftEntry)], (0 : Rat) ≤ e.value := by
    intro e he
    rw [List.mem_singleton] at he
    subst he
    norm_num
  ⟨h, cls_accumulator_invariant.2.2.1 0 [⟨1/20, false⟩] h⟩

/-- C3 counterexample: the basic timing snapshot is NOT computed exactly
once and only after load.  On the event sequence "one layout-shift
delivery, then the load event", the monitor evaluates `getBasicTiming`
twice (each emitted report spreads a fresh snapshot), and one of the two
evaluations happens before the load event fires. -/
theorem basic_timing_recomputed_counterexample :
    Monitor.timingComputationsTrace [.clsDelivery [], .loadFired] = 2 ∧
    Monitor.timingComputationsTrace
      (Monitor.eventsBeforeLoad [.clsDelivery [], .loadFired]) = 1 ∧
    (Monitor.runMonitor Monitor.scenarioTiming 0
      [.clsDelivery [], .loadFired]).2.length = 2 := by
  exact ⟨rfl, rfl, rfl⟩

/-- C3 amended: the eight basic fields are recomputed for every emitted
performance report — once per matching paint entry, once per non-empty
largest-content delivery, once per layout-instability delivery (even an
empty one), and once when the load event fires — and every emitted report
embeds the snapshot evaluated at its own emission. -/
theorem basic_timing_computed_per_report :
    ∀ (t : Monitor.PerformanceTiming) (c : Rat) (tr : List Monitor.MonitorEvent),
      (Monitor.runMonitor t c tr).2.length = Monitor.timingComputationsTrace tr ∧
      ∀ r ∈ (Monitor.runMonitor t c tr).2, r.basic = Monitor.getBasicTiming t := by
  intro t c tr
  induction tr generalizing c with
  | nil => exact ⟨rfl, by intro r hr; simp [Monitor.runMonitor] at hr⟩
  | cons e rest ih =>
      have hrun : Monitor.runMonitor t c (e :: rest) =
          ((Monitor.runMonitor t (Monitor.handleEvent t c e).1 rest).1,
            (Monitor.handleEvent t c e).2 ++
              (Monitor.runMonitor t (Monitor.handleEvent t c e).1 rest).2) := rfl
      constructor
      · rw [hrun]
        simp only [List.length_append]
        rw [(handleEvent_reports t c e).1, (ih (Monitor.handleEvent t c e).1).1]
        simp [Monitor.timingComputationsTrace]
      · intro r hr
        rw [hrun] at hr
        rcases List.mem_append.mp hr with h1 | h2
        · exact (handleEvent_reports t c e).2 r h1
        · exact (ih (Monitor.handleEvent t c e).1).2 r h2

/-- Witness for the amended C3 at a concrete input: on the single-event
sequence "load fired", one report is emitted (one snapshot computation)
and the emitted report embeds the snapshot of the scenario timing. -/
theorem basic_timing_computed_per_report_witness :
    (Monitor.runMonitor Monitor.scenarioTiming 0 [.loadFired]).2.length =
      Monitor.timingComputationsTrace [.loadFired] ∧
    (Monitor.reportPerformance Monitor.scenarioTiming).basic =
      Monitor.getBasicTiming Monitor.scenarioTiming :=
  ⟨(basic_timing_computed_per_report Monitor.scenarioTiming 0 [.loadFired]).1,
   (basic_timing_computed_per_report Monitor.scenarioTiming 0 [.loadFired]).2
     (Monitor.reportPerformance Monitor.scenarioTiming)
     (by simp [Monitor.runMonitor, Monitor.handleEvent])⟩

/-- C4: on every delivery from the largest-content stream, the reported
lcp value comes from the last entry of the delivered batch — its
`renderTime` when non-zero, its `loadTime` otherwise — and in a two-entry
batch only the second entry is consulted. -/
theorem lcp_uses_last_entry :
    (∀ (t : Monitor.PerformanceTiming) (c : Rat)
        (es : List Monitor.LargestContentfulPaintEntry)
        (lastEntry : Monitor.LargestContentfulPaintEntry),
      es.getLast? = some lastEntry →
      (Monitor.handleEvent t c (.lcpDelivery es)).2 =
        [{ basic := Monitor.getBasicTiming t,
           lcp := some (Monitor.jsRound
             (if lastEntry.renderTime = 0 then lastEntry.loadTime
              else lastEntry.renderTime)) }]) ∧
    (∀ (t : Monitor.PerformanceTiming) (c : Rat)
        (e1 e2 : Monitor.LargestContentfulPaintEntry),
      (Monitor.handleEvent t c (.lcpDelivery [e1, e2])).2 =
        [{ basic := Monitor.getBasicTiming t,
           lcp := some (Monitor.jsRound
             (if e2.renderTime = 0 then e2.loadTime else e2.renderTime)) }]) := by
  constructor
  · intro t c es lastEntry h
    show (Monitor.lcpCallback t es) = _
    rw [Monitor.lcpCallback, h]
    rfl
  · intro t c e1 e2
    show (Monitor.lcpCallback t [e1, e2]) = _
    rfl

/-- Witness for C4 at a concrete input: the batch with entries
(renderTime 5, loadTime 9) then (renderTime 7, loadTime 11) has last entry
(7, 11), and the emitted report uses the second entry's render time. -/
theorem lcp_uses_last_entry_witness :
    ([⟨5, 9⟩, ⟨7, 11⟩] : List Monitor.LargestContentfulPaintEntry).getLast? =
      some ⟨7, 11⟩ ∧
    (Monitor.handleEvent Monitor.scenarioTiming 0
        (.lcpDelivery [⟨5, 9⟩, ⟨7, 11⟩])).2 =
      [{ basic := Monitor.getBasicTiming Monitor.scenarioTiming,
         lcp := some (Monitor.jsRound
           (if (7 : Rat) = 0 then (11 : Rat) else (7 : Rat))) }] :=
  ⟨rfl, lcp_uses_last_entry.1 Monitor.scenarioTiming 0 [⟨5, 9⟩, ⟨7, 11⟩] ⟨7, 11⟩ rfl⟩

/-- C8: after processing a layout-instability delivery, exactly one report
carrying the current accumulator total is always emitted, including when
the batch is empty or every entry is flagged as following recent input. -/
theorem cls_delivery_always_reports :
    ∀ (t : Monitor.PerformanceTiming) (c : Rat) (es : List Monitor.LayoutShiftEntry),
      (Monitor.handleEvent t c (.clsDelivery es)).2 =
        [{ basic := Monitor.getBasicTiming t,
           cls := some (Monitor.clsFold c es) }] := by
  intro t c es
  rfl

/-- C10: an empty largest-content delivery emits no report and leaves the
monitor's state unchanged; a report is emitted exactly when the batch has
at least one entry. -/
theorem lcp_empty_batch_no_report :
    ∀ (t : Monitor.PerformanceTiming) (c : Rat)
      (es : List Monitor.LargestContentfulPaintEntry),
      (Monitor.handleEvent t c (.lcpDelivery es)).1 = c ∧
      (Monitor.handleEvent t c (.lcpDelivery es)).2.length =
        (if es.isEmpty then 0 else 1) := by
  intro t c es
  refine ⟨rfl, ?_⟩
  cases es with
  | nil => rfl
  | cons a as =>
      have hne : (a :: as).getLast? = some ((a :: as).getLast (by simp)) := by
        simp [List.getLast?_eq_getLast]
      show (Monitor.lcpCallback t (a :: as)).length = _
      rw [Monitor.lcpCallback, hne]
      rfl

/-- Helper: what a single `observe` call registers. -/
theorem mem_observeType (h : Monitor.Host) (q ty : String) :
    q ∈ Monitor.observeType h ty ↔ (q = ty ∧ ty ∈ h.supported) := by
  unfold Monitor.observeType
  split_ifs with hs <;> simp [hs]

/-- Helper: a stream kind is subscribed exactly when the observer
primitive exists, the kind is supported, and it is one of the three kinds
the monitor observes. -/
theorem mem_setupPerformanceObserver (h : Monitor.Host) (ty : String) :
    ty ∈ Monitor.setupPerformanceObserver h ↔
      (Monitor.streamAvailable h ty ∧ ty ∈ Monitor.streamKinds) := by
  unfold Monitor.setupPerformanceObserver Monitor.streamAvailable
  split_ifs with hp
  · simp only [List.mem_append, mem_observeType, Monitor.streamKinds, hp]
    constructor
    · rintro ((⟨rfl, hs⟩ | ⟨rfl, hs⟩) | ⟨rfl, hs⟩) <;> simp [hs]
    · rintro ⟨⟨_, hs⟩, hk⟩
      simp only [List.mem_cons, List.not_mem_nil, or_false] at hk
      rcases hk with rfl | rfl | rfl
      · exact Or.inl (Or.inl ⟨rfl, hs⟩)
      · exact Or.inl (Or.inr ⟨rfl, hs⟩)
      · exact Or.inr ⟨rfl, hs⟩
  · simp [hp]

/-- C6: each of the three metric-stream subscriptions is independently
optional: a stream whose observation capability is unavailable on the
host is skipped, and every other stream is subscribed exactly when its
own capability is available, unaffected by the first stream. -/
theorem stream_subscriptions_independent :
    ∀ (h : Monitor.Host) (ty : String), ty ∈ Monitor.streamKinds →
      (¬ Monitor.streamAvailable h ty →
        ty ∉ Monitor.setupPerformanceObserver h) ∧
      (∀ ty2 ∈ Monitor.streamKinds, ty2 ≠ ty →
        (ty2 ∈ Monitor.setupPerformanceObserver h ↔
          Monitor.streamAvailable h ty2)) := by
  intro h ty _
  constructor
  · intro hna hmem
    exact hna ((mem_setupPerformanceObserver h ty).mp hmem).1
  · intro ty2 h2 _
    constructor
    · intro hm
      exact ((mem_setupPerformanceObserver h ty2).mp hm).1
    · intro ha
      exact (mem_setupPerformanceObserver h ty2).mpr ⟨ha, h2⟩

/-- Witness for C6 at a concrete input: on a host supporting only the
paint and largest-content streams, the layout-shift subscription is
skipped while the paint subscription is established. -/
theorem stream_subscriptions_independent_witness :
    ("layout-shift" ∈ Monitor.streamKinds) ∧
    ¬ Monitor.streamAvailable
        ⟨true, ["paint", "largest-contentful-paint"]⟩ "layout-shift" ∧
    ("layout-shift" ∉ Monitor.setupPerformanceObserver
        ⟨true, ["paint", "largest-contentful-paint"]⟩) ∧
    ("paint" ∈ Monitor.setupPerformanceObserver
        ⟨true, ["paint", "largest-contentful-paint"]⟩) :=
  ⟨by decide, by decide,
   (stream_subscriptions_independent
       ⟨true, ["paint", "largest-contentful-paint"]⟩ "layout-shift"
       (by decide)).1 (by decide),
   ((stream_subscriptions_independent
       ⟨true, ["paint", "largest-contentful-paint"]⟩ "layout-shift"
       (by decide)).2 "paint" (by decide) (by decide)).mpr (by decide)⟩

/-- C9: `init` is idempotent: from the uninitialized state the call sets
the monitoring flag and installs the subscriptions, the three error
listeners and the load listener exactly once; any call after a first call
installs nothing and leaves the state unchanged. -/
theorem init_idempotent :
    ∀ (h : Monitor.Host) (b : Bool),
      (Monitor.init h b).1 = true ∧
      Monitor.init h false =
        (true,
          { subscriptions := Monitor.setupPerformanceObserver h
            errorListeners := 3
            loadListeners := 1 }) ∧
      Monitor.init h true = (true, Monitor.noInstalls) ∧
      Monitor.init h (Monitor.init h b).1 =
        ((Monitor.init h b).1, Monitor.noInstalls) := by
  intro h b
  cases b <;> exact ⟨rfl, rfl, rfl, rfl⟩

/-- C5: an "error"-channel event whose target is a qualifying resource
element (LINK, SCRIPT or IMG) produces exactly two records — a `js` one
from the script-error listener, then a `resource` one from the
resource-error listener — while any other "error"-channel event produces
exactly one `js` record, and an unhandled rejection produces exactly one
`promise` record. -/
theorem error_record_kinds :
    ∀ (pageUrl : String) (now : Int) (ev : Monitor.ErrorChannelEvent)
      (rev : Monitor.RejectionEvent),
      ((Monitor.errorChannel pageUrl now ev).map fun r => r.type) =
        (if Monitor.isResourceTarget ev then
          [Monitor.ErrorKind.js, Monitor.ErrorKind.resource]
         else [Monitor.ErrorKind.js]) ∧
      (Monitor.rejectionListener pageUrl now rev).type =
        Monitor.ErrorKind.promise := by
  intro pageUrl now ev rev
  refine ⟨?_, rfl⟩
  cases h : Monitor.isResourceTarget ev <;>
    simp [Monitor.errorChannel, h, Monitor.jsErrorListener,
      Monitor.resourceErrorListener]

/-- C7 counterexample: for a resource error the filename does NOT default
to the current page URL when the source location is unknown.  On a
qualifying IMG target with no `src` and no `href`, the script-error
listener's record does fall back to the page URL, but the resource
listener's record gets filename "" — the empty string, not the page
URL. -/
theorem error_filename_default_counterexample :
    ((Monitor.errorChannel "https://example.com/page" 0
        Monitor.unknownResourceEvent).map fun r => r.filename) =
      ["https://example.com/page", ""] ∧
    ("" : String) ≠ "https://example.com/page" :=
  ⟨rfl, by decide⟩

/-- C7 amended: script-error records default an unknown filename to the
current page URL and unknown line/column to 0; promise-rejection records
always carry the page URL and line/column 0; resource records carry the
element's resource URL (`src`, else `href`) with line/column 0, and when
both are unknown the filename defaults to the empty string. -/
theorem error_filename_defaults :
    ∀ (pageUrl : String) (now : Int) (ev : Monitor.ErrorChannelEvent)
      (rev : Monitor.RejectionEvent),
      ((ev.filename = none ∨ ev.filename = some "") →
        (Monitor.jsErrorListener pageUrl now ev).filename = pageUrl) ∧
      (ev.lineno = none → (Monitor.jsErrorListener pageUrl now ev).lineno = 0) ∧
      (ev.colno = none → (Monitor.jsErrorListener pageUrl now ev).colno = 0) ∧
      ((ev.targetSrc = none ∨ ev.targetSrc = some "") →
        (ev.targetHref = none ∨ ev.targetHref = some "") →
        (Monitor.resourceErrorListener now ev).filename = "") ∧
      (∀ s, ev.targetSrc = some s → s ≠ "" →
        (Monitor.resourceErrorListener now ev).filename = s) ∧
      (∀ s, (ev.targetSrc = none ∨ ev.targetSrc = some "") →
        ev.targetHref = some s → s ≠ "" →
        (Monitor.resourceErrorListener now ev).filename = s) ∧
      (Monitor.resourceErrorListener now ev).lineno = 0 ∧
      (Monitor.resourceErrorListener now ev).colno = 0 ∧
      (Monitor.rejectionListener pageUrl now rev).filename = pageUrl ∧
      (Monitor.rejectionListener pageUrl now rev).lineno = 0 ∧
      (Monitor.rejectionListener pageUrl now rev).colno = 0 := by
  intro pageUrl now ev rev
  refine ⟨?_, ?_, ?_, ?_, ?_, ?_, rfl, rfl, rfl, rfl, rfl⟩
  · rintro (hf | hf) <;>
      simp [Monitor.jsErrorListener, Monitor.jsOrStr, hf]
  · intro hl
    simp [Monitor.jsErrorListener, hl]
  · intro hc
    simp [Monitor.jsErrorListener, hc]
  · rintro (hs | hs) (hh | hh) <;>
      simp [Monitor.resourceErrorListener, Monitor.jsOrOptStr,
        Monitor.jsOrStr, hs, hh]
  · intro s hs hne
    simp [Monitor.resourceErrorListener, Monitor.jsOrOptStr,
      Monitor.jsOrStr, hs, hne]
  · rintro s (hs | hs) hh hne <;>
      simp [Monitor.resourceErrorListener, Monitor.jsOrOptStr,
        Monitor.jsOrStr, hs, hh, hne]

/-- Witness for the amended C7 at concrete inputs: on the qualifying IMG
event with everything unknown, the script-error record's filename is the
page URL and the resource record's filename is the empty string; on a
LINK event with no `src` and a non-empty `href`, the resource record's
filename is that `href`. -/
theorem error_filename_defaults_witness :
    (Monitor.unknownResourceEvent.filename = none ∨
      Monitor.unknownResourceEvent.filename = some "") ∧
    (Monitor.jsErrorListener "https://example.com/page" 0
        Monitor.unknownResourceEvent).filename = "https://example.com/page" ∧
    (Monitor.resourceErrorListener 0
        Monitor.unknownResourceEvent).filename = "" ∧
    (Monitor.resourceErrorListener 0
        (⟨none, none, none, none, none, some "LINK", none,
          some "https://cdn.x/a.css"⟩ : Monitor.ErrorChannelEvent)).filename =
      "https://cdn.x/a.css" :=
  ⟨Or.inl rfl,
   (error_filename_defaults "https://example.com/page" 0
       Monitor.unknownResourceEvent ⟨none, none⟩).1 (Or.inl rfl),
   (error_filename_defaults "https://example.com/page" 0
       Monitor.unknownResourceEvent ⟨none, none⟩).2.2.2.1
     (Or.inl rfl) (Or.inl rfl),
   (error_filename_defaults "https://example.com/page" 0
       ⟨none, none, none, none, none, some "LINK", none,
         some "https://cdn.x/a.css"⟩ ⟨none, none⟩).2.2.2.2.2.1
     "https://cdn.x/a.css" (Or.inl rfl) rfl (by decide)⟩
